import Mathlib

/-!
Verification of the content-trend-analysis core
(`backend/services/data_processor.py`, `backend/utils/helpers.py`).

The Python code is shallowly embedded: dictionaries become a record type
whose `Option` fields track key presence, floats become `ℚ`, and the
wall clock / TextBlob sentiment engine become explicit parameters
(`Env`).  Python's `round` (banker's rounding at ties) is modelled over
exact rationals by `roundHalfEven`.
-/

/-- Round to the nearest integer, ties to even (Python's `round`). -/
def roundHalfEven (q : ℚ) : ℤ :=
  if q - ⌊q⌋ < 1/2 then ⌊q⌋
  else if 1/2 < q - ⌊q⌋ then ⌊q⌋ + 1
  else if ⌊q⌋ % 2 = 0 then ⌊q⌋ else ⌊q⌋ + 1

/-- Python `round(x, 2)` over exact rationals. -/
def round2 (q : ℚ) : ℚ := (roundHalfEven (q * 100) : ℚ) / 100

/-- Python `round(x, 3)` over exact rationals. -/
def round3 (q : ℚ) : ℚ := (roundHalfEven (q * 1000) : ℚ) / 1000

/-- Python regex `\w`: alphanumeric or underscore. -/
def isWordChar (c : Char) : Bool := c.isAlphanum || c = '_'

/-- Length of the match of `http\S+|www\S+|https\S+` starting at the head of
`l`, if any (the `https\S+` alternative is subsumed by `http\S+`). -/
def urlMatchLen (l : List Char) : Option Nat :=
  let tryPre (p : List Char) : Option Nat :=
    if l.take p.length = p then
      let tok := (l.drop p.length).takeWhile (fun c => !c.isWhitespace)
      if tok.length = 0 then none else some (p.length + tok.length)
    else none
  match tryPre ['h', 't', 't', 'p'] with
  | some n => some n
  | none => tryPre ['w', 'w', 'w']

/-- Model of `re.sub(r'http\S+|www\S+|https\S+', '', text)`, scanning left to right.
The `Nat` fuel dominates the list length so the recursion is structural and
kernel-reducible; every match consumes at least four characters. -/
def removeUrlsAux : Nat → List Char → List Char
  | 0, _ => []
  | _, [] => []
  | fuel + 1, c :: cs =>
    match urlMatchLen (c :: cs) with
    | some n => removeUrlsAux fuel ((c :: cs).drop n)
    | none => c :: removeUrlsAux fuel cs

def removeUrls (l : List Char) : List Char := removeUrlsAux l.length l

/-- Python `str.split()` with no argument: split on whitespace runs,
discarding empty tokens. -/
def splitWsAux : Nat → List Char → List (List Char)
  | 0, _ => []
  | _, [] => []
  | fuel + 1, c :: cs =>
    if c.isWhitespace then splitWsAux fuel cs
    else (c :: cs.takeWhile (fun x => !x.isWhitespace)) ::
      splitWsAux fuel (cs.dropWhile (fun x => !x.isWhitespace))

def splitWs (l : List Char) : List (List Char) := splitWsAux l.length l

/-- Python `str.strip()`. -/
def stripWs (l : List Char) : List Char :=
  ((l.dropWhile Char.isWhitespace).reverse.dropWhile Char.isWhitespace).reverse

/-- Embedding of `helpers.clean_text`: URL removal, non-word characters to spaces,
whitespace collapsed, then stripped. -/
def clean_text (s : String) : String :=
  if s = "" then ""
  else
    let l1 := removeUrls s.toList
    let l2 := l1.map (fun c => if isWordChar c || c.isWhitespace then c else ' ')
    let l3 := List.intercalate [' '] (splitWs l2)
    String.mk (stripWs l3)

/-- Model of `re.findall(r'#\w+', ·)`: non-overlapping matches, the leading `#`
dropped by the caller. -/
def findHashtagsAux : Nat → List Char → List (List Char)
  | 0, _ => []
  | _, [] => []
  | fuel + 1, c :: cs =>
    if c = '#' then
      let tok := cs.takeWhile isWordChar
      if tok.length = 0 then findHashtagsAux fuel cs
      else tok :: findHashtagsAux fuel (cs.drop tok.length)
    else findHashtagsAux fuel cs

/-- Embedding of `helpers.extract_hashtags`: lower-case the text, find `#\w+` matches,
return them without the `#`. -/
def extract_hashtags (s : String) : List String :=
  let low := s.toList.map Char.toLower
  (findHashtagsAux low.length low).map (fun tok => String.mk tok)

/-- Python `str.lower()` (ASCII model). -/
def pyToLower (s : String) : String := String.mk (s.toList.map Char.toLower)

/-- Python `needle in hay` on strings: substring containment. -/
def strContains (hay needle : String) : Bool :=
  let n := needle.toList
  let h := hay.toList
  (List.range (h.length + 1)).any (fun i => n.isPrefixOf (h.drop i))

/-- The sentiment record built by `helpers.analyze_sentiment`. -/
structure Sentiment where
  polarity : ℚ
  subjectivity : ℚ
  label : String
  confidence : ℚ
deriving DecidableEq

/-- The neutral default returned on any sentiment failure. -/
def neutralSentiment : Sentiment :=
  { polarity := 0, subjectivity := 0, label := "neutral", confidence := 0 }

/-- Embedding of `helpers.analyze_sentiment`.  The TextBlob polarity/subjectivity engine
is an external library, modelled as an oracle `blob` that may fail; the
`try/except` around it maps every failure to `neutralSentiment`. -/
def analyze_sentiment (blob : String → Except Unit (ℚ × ℚ)) (text : String) :
    Sentiment :=
  match blob (clean_text text) with
  | .error _ => neutralSentiment
  | .ok (p, s) =>
    { polarity := p
      subjectivity := s
      label := if p > 1/10 then "positive"
               else if p < -(1/10) then "negative" else "neutral"
      confidence := |p| }

/-- Embedding of `helpers.calculate_engagement_rate`.  Arguments are `Option` to model
Python `None`.  `views == 0` compares `None == 0` to `False`, so a `none`
view count reaches the division and raises a `TypeError` (`.error`);
`likes or 0` etc. turn `none` counts into `0`. -/
def calculate_engagement_rate (likes comments shares views : Option Int) :
    Except Unit ℚ :=
  if views = some 0 then .ok 0
  else
    match views with
    | none => .error ()
    | some v =>
      .ok ((((likes.getD 0 + comments.getD 0 + shares.getD 0 : ℤ) : ℚ) / (v : ℚ)) * 100)

/-- The value of an item's `hashtags` key.  The processor never decodes a
JSON string, so a string value stays a string: Python `len` and iteration
then operate on its characters. -/
inductive HashField
  | absent
  | ofList (l : List String)
  | ofStr (s : String)
deriving DecidableEq

/-- Python truthiness of `item.get('hashtags')` (`None`, `[]` and `""` are
falsy). -/
def HashField.truthy : HashField → Bool
  | .absent => false
  | .ofList l => !l.isEmpty
  | .ofStr s => s != ""

/-- Python `len` on the hashtags value (characters for a string). -/
def HashField.pyLen : HashField → Nat
  | .absent => 0
  | .ofList l => l.length
  | .ofStr s => s.length

/-- Python `for hashtag in hashtags` (characters, as 1-char strings, for a
string value). -/
def HashField.iter : HashField → List String
  | .absent => []
  | .ofList l => l
  | .ofStr s => s.toList.map (fun c => String.mk [c])

/-- The outcome of `datetime.fromisoformat` on the `published_date` value:
either the parse (or the `.replace` attribute access) raises, or it yields a
timestamp, recorded in hours so that `hours_old = now - t`. -/
inductive PubDate
  | unparseable
  | parsed (t : ℚ)
deriving DecidableEq

/-- A content-item dictionary, restricted to the keys the processor reads or
writes.  `Option` encodes key presence; counts are `Option (Option Int)`
(absent key / present-but-`None` / integer). -/
structure Item where
  processed_at : Option String := none
  view_count : Option (Option Int) := none
  like_count : Option (Option Int) := none
  comment_count : Option (Option Int) := none
  engagement_rate : Option ℚ := none
  title : String := ""
  description : String := ""
  title_clean : Option String := none
  description_clean : Option String := none
  hashtags : HashField := .absent
  sentiment : Option Sentiment := none
  published_date : Option PubDate := none
  platform : Option String := none
  trending_score : Option ℚ := none
deriving DecidableEq

/-- Value of `item.get(k, 0) or 0` on a count field. -/
def getCount : Option (Option Int) → Int
  | none => 0
  | some none => 0
  | some (some n) => n

/-- External inputs of the processor: the wall-clock timestamp string, the
wall-clock time in hours (for `hours_old`), and the TextBlob oracle. -/
structure Env where
  nowStr : String
  nowH : ℚ
  blob : String → Except Unit (ℚ × ℚ)

namespace DataProcessor

/-- Engagement factor of `_calculate_trending_score` (40% of score). -/
def engagementComponent (er : ℚ) : ℚ :=
  if er > 0 then min (er / 10) 1 * (4/10) else 0

/-- The unweighted recency sub-score `1.0 - hours_old/24.0`. -/
def recency_score (hoursOld : ℚ) : ℚ := 1 - hoursOld / 24

/-- Recency factor of `_calculate_trending_score`, including the
`except`-branch flat `0.15` on a parse failure.  An absent key adds
nothing (the `try` body is a no-op and does not raise). -/
def recencyContribution (nowH : ℚ) : Option PubDate → ℚ
  | none => 0
  | some .unparseable => 15/100
  | some (.parsed t) =>
    if nowH - t < 24 then recency_score (nowH - t) * (3/10) else 0

/-- Hashtag factor of `_calculate_trending_score` (20% of score). -/
def hashtagComponent (h : HashField) : ℚ :=
  if h.truthy then min ((h.pyLen : ℚ) / 5) 1 * (2/10) else 0

/-- Sentiment factor of `_calculate_trending_score` (10% of score). -/
def sentimentComponent : Option Sentiment → ℚ
  | none => 0
  | some s => if s.polarity > 0 then min s.polarity 1 * (1/10) else 0

/-- The accumulated `score` of `_calculate_trending_score` before the final
clamp and rounding. -/
def rawTrendingScore (nowH : ℚ) (i : Item) : ℚ :=
  engagementComponent (i.engagement_rate.getD 0)
    + recencyContribution nowH i.published_date
    + hashtagComponent i.hashtags
    + sentimentComponent i.sentiment

/-- Embedding of `DataProcessor._calculate_trending_score`. -/
def calculate_trending_score (nowH : ℚ) (i : Item) : ℚ :=
  round3 (min (rawTrendingScore nowH i) 1)

/-- The engagement block of `process_single_item` (lines 30-40). -/
def addEngagement (i : Item) : Item :=
  if i.view_count.isSome && i.like_count.isSome then
    let views := getCount i.view_count
    let likes := getCount i.like_count
    let comments := getCount i.comment_count
    if views > 0 then
      { i with engagement_rate := some (round2 ((((likes + comments : ℤ) : ℚ) / (views : ℚ)) * 100)) }
    else
      { i with engagement_rate := some 0 }
  else i

/-- The text block of `process_single_item` (lines 42-54): cleaned title and
description, hashtags extracted from the title only when the field is falsy. -/
def addTextFields (i : Item) : Item :=
  let i1 :=
    if i.title ≠ "" then
      if !i.hashtags.truthy then
        { i with title_clean := some (clean_text i.title),
                 hashtags := .ofList (extract_hashtags i.title) }
      else { i with title_clean := some (clean_text i.title) }
    else i
  if i.description ≠ "" then
    { i1 with description_clean := some (clean_text i.description) }
  else i1

/-- The sentiment block of `process_single_item` (lines 56-68); the text
analyzed is `f"{title} {description}".strip()`. -/
def addSentiment (env : Env) (i : Item) : Item :=
  let text := String.mk (stripWs (i.title ++ " " ++ i.description).toList)
  if text ≠ "" then
    { i with sentiment := some (analyze_sentiment env.blob text) }
  else i

/-- Embedding of `DataProcessor.process_single_item`: stamps `processed_at`, then runs the
engagement, text, sentiment and trending-score blocks in source order. -/
def process_single_item (env : Env) (i : Item) : Item :=
  let i1 := addEngagement { i with processed_at := some env.nowStr }
  let i2 := addTextFields i1
  let i3 := addSentiment env i2
  { i3 with trending_score := some (calculate_trending_score env.nowH i3) }

/-- Embedding of `DataProcessor.process_content_batch`: processes every item of the batch,
with no `processed_at` check. -/
def process_content_batch (env : Env) (items : List Item) : List Item :=
  items.map (process_single_item env)

/-- Model of `counts[k] = counts.get(k, 0) + 1` on an insertion-ordered dict,
modelled as an association list. -/
def bump (l : List (String × Nat)) (k : String) : List (String × Nat) :=
  match l with
  | [] => [(k, 1)]
  | (a, n) :: rest => if a = k then (a, n + 1) :: rest else (a, n) :: bump rest k

/-- Insert into a list already sorted by strictly decreasing key, after all
elements of greater-or-equal key (so a stable descending sort results). -/
def insertDescBy {α β : Type} [LinearOrder β] (key : α → β) (x : α) :
    List α → List α
  | [] => [x]
  | y :: ys => if key y < key x then x :: y :: ys else y :: insertDescBy key x ys

/-- Python `sorted(l, key=key, reverse=True)`: stable, descending. -/
def stableSortDescBy {α β : Type} [LinearOrder β] (key : α → β) (l : List α) :
    List α :=
  l.foldl (fun acc x => insertDescBy key x acc) []

/-- One entry of `analyze_trends`'s `trending_hashtags` list. -/
structure TrendingTag where
  hashtag : String
  count : Nat
  trend_score : ℚ
deriving DecidableEq

/-- The `engagement_stats` dict of `analyze_trends` (when any item carries an
engagement rate). -/
structure EngStats where
  average : ℚ
  max : ℚ
  min : ℚ
  count : Nat
deriving DecidableEq

/-- The `sentiment_analysis` dict of `analyze_trends`' non-empty branch. -/
structure SentimentSummary where
  distribution : List (String × Nat)
  total_analyzed : Nat
deriving DecidableEq

/-- The dictionary returned by `analyze_trends`.  `none` in an `Option`
field models an absent key (`total_analyzed`, `analysis_timestamp` in the
empty-batch branch) or an empty dict value (`sentiment_analysis`,
`engagement_stats`). -/
structure TrendSummary where
  trending_hashtags : List TrendingTag
  platform_distribution : List (String × Nat)
  sentiment_analysis : Option SentimentSummary
  engagement_stats : Option EngStats
  total_analyzed : Option Nat
  analysis_timestamp : Option String
deriving DecidableEq

/-- Embedding of `DataProcessor._calculate_hashtag_trend_score`. -/
def calculate_hashtag_trend_score (hashtag : String) (count total_items : Nat) : ℚ :=
  if total_items = 0 then 0
  else
    let frequency_score : ℚ := (count : ℚ) / (total_items : ℚ)
    let trending_keywords := ["viral", "trending", "hot", "breaking", "new", "latest"]
    let keyword_boost : ℚ :=
      if trending_keywords.any (fun kw => strContains (pyToLower hashtag) kw) then 3/2 else 1
    round3 (min (frequency_score * keyword_boost) 1)

/-- The platform-counting loop of `analyze_trends`. -/
def countPlatforms (items : List Item) : List (String × Nat) :=
  items.foldl (fun acc i => bump acc (i.platform.getD "unknown")) []

/-- The hashtag-counting loop of `analyze_trends`. -/
def countHashtags (items : List Item) : List (String × Nat) :=
  items.foldl (fun acc i => i.hashtags.iter.foldl bump acc) []

/-- The sentiment-counting loop of `analyze_trends`; only a truthy
`sentiment` value contributes. -/
def countSentiments (items : List Item) : List (String × Nat) :=
  items.foldl
    (fun acc i => match i.sentiment with
      | none => acc
      | some s => bump acc s.label) []

/-- Python `max` over a non-empty list (the empty case never arises). -/
def pyListMax (l : List ℚ) : ℚ :=
  match l with
  | [] => 0
  | x :: xs => xs.foldl max x

/-- Python `min` over a non-empty list (the empty case never arises). -/
def pyListMin (l : List ℚ) : ℚ :=
  match l with
  | [] => 0
  | x :: xs => xs.foldl min x

/-- Embedding of `DataProcessor.analyze_trends`. -/
def analyze_trends (nowStr : String) (items : List Item) : TrendSummary :=
  if items.isEmpty then
    { trending_hashtags := []
      platform_distribution := []
      sentiment_analysis := none
      engagement_stats := none
      total_analyzed := none
      analysis_timestamp := none }
  else
    let hashtag_counts := countHashtags items
    let sentiment_counts := countSentiments items
    let engagement_rates := items.filterMap (fun i => i.engagement_rate)
    let trending := (stableSortDescBy (fun p => p.2) hashtag_counts).take 15
    let engagement_stats : Option EngStats :=
      if engagement_rates.isEmpty then none
      else some
        { average := round2 (engagement_rates.sum / (engagement_rates.length : ℚ))
          max := round2 (pyListMax engagement_rates)
          min := round2 (pyListMin engagement_rates)
          count := engagement_rates.length }
    { trending_hashtags := trending.map (fun p =>
        { hashtag := p.1
          count := p.2
          trend_score := calculate_hashtag_trend_score p.1 p.2 items.length })
      platform_distribution := countPlatforms items
      sentiment_analysis := some
        { distribution := sentiment_counts
          total_analyzed := (sentiment_counts.map (fun p => p.2)).sum }
      engagement_stats := engagement_stats
      total_analyzed := some items.length
      analysis_timestamp := some nowStr }

/-- Embedding of `DataProcessor.get_top_trending_content`: stable sort by trending score
descending (missing scores sort as 0), then truncate. -/
def get_top_trending_content (items : List Item) (limit : Nat) : List Item :=
  (stableSortDescBy (fun i => i.trending_score.getD 0) items).take limit

/-- The dictionary returned by `get_content_summary`; `Option` fields model
keys present only in one of the two branches. -/
structure ContentSummary where
  total_content : Nat
  summary : Option String
  trend_analysis : Option TrendSummary
  top_trending_content : Option (List Item)
  items_processed : Option Nat
  processing_timestamp : Option String
deriving DecidableEq

/-- The re-processing loop of `get_content_summary` (lines 241-247): an item
already carrying `processed_at` is passed through unchanged; only items
without it are processed (on a copy). -/
def summaryProcessedItems (env : Env) (items : List Item) : List Item :=
  items.map (fun i => if i.processed_at = none then process_single_item env i else i)

/-- Embedding of `DataProcessor.get_content_summary`. -/
def get_content_summary (env : Env) (items : List Item) : ContentSummary :=
  if items.isEmpty then
    { total_content := 0
      summary := some "No content available for analysis"
      trend_analysis := none
      top_trending_content := none
      items_processed := none
      processing_timestamp := none }
  else
    let ps := summaryProcessedItems env items
    { total_content := ps.length
      summary := none
      trend_analysis := some (analyze_trends env.nowStr ps)
      top_trending_content := some (get_top_trending_content ps 5)
      items_processed := some ps.length
      processing_timestamp := some env.nowStr }

end DataProcessor

/-- The hashtag trend-score formula as the spec states it, for comparison
with the implementation: `min((count / total) * keyword_boost, 1.0)` rounded
to 3 decimals, with a 1.5 boost when the lower-cased hashtag contains one of
the fixed keywords. -/
def specHashtagTrendScore (hashtag : String) (count total_items : Nat) : ℚ :=
  let keywordSet := ["viral", "trending", "hot", "breaking", "new", "latest"]
  let boost : ℚ :=
    if keywordSet.any (fun kw => strContains (pyToLower hashtag) kw) then 3/2 else 1
  round3 (min (((count : ℚ) / (total_items : ℚ)) * boost) 1)

/-- A concrete environment: fixed clock, TextBlob always failing. -/
def env0 : Env :=
  { nowStr := "2024-01-02T00:00:00", nowH := 0, blob := fun _ => .error () }

/-- A concrete item that already carries `processed_at`. -/
def preItem : Item := { processed_at := some "2024-01-01T00:00:00" }

/-- A concrete item whose `hashtags` key holds a JSON-encoded string. -/
def jsonItem : Item := { hashtags := .ofStr "[\"viral\"]" }

/-- A concrete item with a non-empty title (for the sentiment pipeline). -/
def hiItem : Item := { title := "hi" }

/-- First item of the spec's end-to-end scenario. -/
def viralItem1 : Item :=
  { hashtags := .ofList ["viral", "news"], engagement_rate := some 12 }

/-- Second item of the spec's end-to-end scenario. -/
def viralItem2 : Item :=
  { hashtags := .ofList ["viral"], engagement_rate := some 2 }

/-- A concrete item used for the engagement-enrichment witness. -/
def engItem : Item :=
  { view_count := some (some 200), like_count := some (some 10),
    comment_count := some (some 6) }

lemma roundHalfEven_nonneg {q : ℚ} (hq : 0 ≤ q) : 0 ≤ roundHalfEven q := by
  have h0 : (0 : ℤ) ≤ ⌊q⌋ := Int.le_floor.mpr (by exact_mod_cast hq)
  unfold roundHalfEven
  split_ifs <;> omega

lemma roundHalfEven_le {q : ℚ} {n : ℤ} (hq : q ≤ n) : roundHalfEven q ≤ n := by
  have hfl : (⌊q⌋ : ℚ) ≤ q := Int.floor_le q
  have hf : ⌊q⌋ ≤ n := by
    have : (⌊q⌋ : ℚ) ≤ (n : ℚ) := le_trans hfl hq
    exact_mod_cast this
  unfold roundHalfEven
  split_ifs with h1 h2 h3
  · exact hf
  · have hlt : (⌊q⌋ : ℚ) < (n : ℚ) := by linarith
    have : ⌊q⌋ < n := by exact_mod_cast hlt
    omega
  · exact hf
  · have h2' : (1 : ℚ)/2 ≤ q - ⌊q⌋ := le_of_not_lt h1
    have hlt : (⌊q⌋ : ℚ) < (n : ℚ) := by linarith
    have : ⌊q⌋ < n := by exact_mod_cast hlt
    omega

namespace DataProcessor

lemma engagementComponent_nonneg (er : ℚ) : 0 ≤ engagementComponent er := by
  unfold engagementComponent
  split_ifs with h
  · have h1 : (0 : ℚ) ≤ min (er / 10) 1 := le_min (by linarith) (by norm_num)
    nlinarith
  · exact le_refl 0

lemma engagementComponent_le (er : ℚ) : engagementComponent er ≤ 4/10 := by
  unfold engagementComponent
  split_ifs with h
  · have h1 : min (er / 10) 1 ≤ 1 := min_le_right _ _
    nlinarith
  · norm_num

lemma recencyContribution_nonneg (nowH : ℚ) (pd : Option PubDate) :
    0 ≤ recencyContribution nowH pd := by
  match pd with
  | none => exact le_refl 0
  | some .unparseable => norm_num [recencyContribution]
  | some (.parsed t) =>
    simp only [recencyContribution, recency_score]
    split_ifs with h
    · nlinarith
    · exact le_refl 0

lemma recencyContribution_parsed_le {nowH t : ℚ} (hpast : t ≤ nowH) :
    recencyContribution nowH (some (.parsed t)) ≤ 3/10 := by
  simp only [recencyContribution, recency_score]
  split_ifs with h
  · nlinarith
  · norm_num

lemma hashtagComponent_nonneg (h : HashField) : 0 ≤ hashtagComponent h := by
  unfold hashtagComponent
  split_ifs
  · have h1 : (0 : ℚ) ≤ min ((h.pyLen : ℚ) / 5) 1 :=
      le_min (by positivity) (by norm_num)
    nlinarith
  · exact le_refl 0

lemma hashtagComponent_le (h : HashField) : hashtagComponent h ≤ 2/10 := by
  unfold hashtagComponent
  split_ifs
  · have h1 : min ((h.pyLen : ℚ) / 5) 1 ≤ 1 := min_le_right _ _
    nlinarith
  · norm_num

lemma sentimentComponent_nonneg (os : Option Sentiment) :
    0 ≤ sentimentComponent os := by
  match os with
  | none => exact le_refl 0
  | some s =>
    simp only [sentimentComponent]
    split_ifs with h
    · have h1 : (0 : ℚ) ≤ min s.polarity 1 := le_min (by linarith) (by norm_num)
      nlinarith
    · exact le_refl 0

lemma sentimentComponent_le (os : Option Sentiment) :
    sentimentComponent os ≤ 1/10 := by
  match os with
  | none => norm_num [sentimentComponent]
  | some s =>
    simp only [sentimentComponent]
    split_ifs with h
    · have h1 : min s.polarity 1 ≤ 1 := min_le_right _ _
      nlinarith
    · norm_num

lemma rawTrendingScore_nonneg (nowH : ℚ) (i : Item) :
    0 ≤ rawTrendingScore nowH i := by
  unfold rawTrendingScore
  have h1 := engagementComponent_nonneg (i.engagement_rate.getD 0)
  have h2 := recencyContribution_nonneg nowH i.published_date
  have h3 := hashtagComponent_nonneg i.hashtags
  have h4 := sentimentComponent_nonneg i.sentiment
  linarith

end DataProcessor

/-- C8: Aggregating an empty batch returns, without error, exactly the
zero-value summary: empty trending hashtags, empty platform distribution,
empty sentiment analysis, empty engagement stats (and no other keys). -/
theorem c8_empty_batch_aggregate (nowStr : String) :
    DataProcessor.analyze_trends nowStr [] =
      { trending_hashtags := []
        platform_distribution := []
        sentiment_analysis := none
        engagement_stats := none
        total_analyzed := none
        analysis_timestamp := none } := rfl

/-- C4: For every item and every clock value, the trending score lies in
`[0, 1]` and is an integer multiple of `1/1000` (i.e. rounded to 3 decimal
places). -/
theorem c4_trending_score_bounds (nowH : ℚ) (i : Item) :
    0 ≤ DataProcessor.calculate_trending_score nowH i
    ∧ DataProcessor.calculate_trending_score nowH i ≤ 1
    ∧ ∃ k : ℤ, DataProcessor.calculate_trending_score nowH i = (k : ℚ) / 1000 := by
  have hraw : 0 ≤ DataProcessor.rawTrendingScore nowH i :=
    DataProcessor.rawTrendingScore_nonneg nowH i
  have hmin0 : 0 ≤ min (DataProcessor.rawTrendingScore nowH i) 1 :=
    le_min hraw (by norm_num)
  have hmin1 : min (DataProcessor.rawTrendingScore nowH i) 1 ≤ 1 :=
    min_le_right _ _
  have hlo : (0 : ℤ) ≤ roundHalfEven (min (DataProcessor.rawTrendingScore nowH i) 1 * 1000) :=
    roundHalfEven_nonneg (by nlinarith)
  have hhi : roundHalfEven (min (DataProcessor.rawTrendingScore nowH i) 1 * 1000) ≤ (1000 : ℤ) :=
    roundHalfEven_le (by push_cast; nlinarith)
  unfold DataProcessor.calculate_trending_score round3
  refine ⟨?_, ?_, ⟨roundHalfEven (min (DataProcessor.rawTrendingScore nowH i) 1 * 1000), rfl⟩⟩
  · apply div_nonneg _ (by norm_num)
    exact_mod_cast hlo
  · rw [div_le_one (by norm_num)]
    exact_mod_cast hhi

/-- C2 counterexample: The recency sub-score is *not* clamped to `[0,1]`
before weighting: with the clock at hour 0 and a published timestamp 48 hours
in the future, `hours_old = -48`, the unweighted sub-score is `3 > 1`, and
the weighted recency contribution is `0.9 > 0.3`. -/
theorem c2_counterexample :
    DataProcessor.recency_score (0 - 48) = 3
    ∧ ¬ DataProcessor.recency_score (0 - 48) ≤ 1
    ∧ DataProcessor.recencyContribution 0 (some (.parsed 48)) = 9/10
    ∧ ¬ DataProcessor.recencyContribution 0 (some (.parsed 48)) ≤ 3/10 := by
  refine ⟨?_, by norm_num [DataProcessor.recency_score], ?_, ?_⟩
  · norm_num [DataProcessor.recency_score]
  · norm_num [DataProcessor.recencyContribution, DataProcessor.recency_score]
  · norm_num [DataProcessor.recencyContribution, DataProcessor.recency_score]

/-- C2 (amended): The trending score is a weighted sum with weights
0.4/0.3/0.2/0.1; the engagement, hashtag and sentiment sub-scores are each
clamped below 1 before weighting (weighted contributions never exceed their
weights), and the recency contribution is bounded by its weight only when
the published timestamp is not in the future — for future timestamps it can
exceed it (see the counterexample); only the final sum is clamped to 1. -/
theorem c2_amended_subscore_clamps (nowH t er : ℚ) (h : HashField)
    (os : Option Sentiment) (hpast : t ≤ nowH) :
    DataProcessor.engagementComponent er ≤ 4/10
    ∧ DataProcessor.hashtagComponent h ≤ 2/10
    ∧ DataProcessor.sentimentComponent os ≤ 1/10
    ∧ DataProcessor.recencyContribution nowH (some (.parsed t)) ≤ 3/10 :=
  ⟨DataProcessor.engagementComponent_le er,
   DataProcessor.hashtagComponent_le h,
   DataProcessor.sentimentComponent_le os,
   DataProcessor.recencyContribution_parsed_le hpast⟩

theorem c2_amended_witness :
    DataProcessor.engagementComponent 10000 ≤ 4/10
    ∧ DataProcessor.hashtagComponent (.ofList ["a", "b", "c", "d", "e", "f"]) ≤ 2/10
    ∧ DataProcessor.sentimentComponent (some { polarity := 2, subjectivity := 0, label := "positive", confidence := 2 }) ≤ 1/10
    ∧ DataProcessor.recencyContribution 24 (some (.parsed 0)) ≤ 3/10 :=
  c2_amended_subscore_clamps 24 0 10000
    (.ofList ["a", "b", "c", "d", "e", "f"])
    (some { polarity := 2, subjectivity := 0, label := "positive", confidence := 2 })
    (by norm_num)

/-- C3: Recency handling is asymmetric: a parseable timestamp 24 hours
old or older contributes exactly as no timestamp at all (0); a present but
unparseable timestamp adds a flat, unweighted `+0.15` to the accumulated
score; an absent key adds nothing. -/
theorem c3_recency_asymmetry (nowH t : ℚ) (i : Item) (hold : 24 ≤ nowH - t) :
    DataProcessor.calculate_trending_score nowH { i with published_date := some (.parsed t) }
      = DataProcessor.calculate_trending_score nowH { i with published_date := none }
    ∧ DataProcessor.recencyContribution nowH (some .unparseable) = 15/100
    ∧ DataProcessor.recencyContribution nowH none = 0
    ∧ DataProcessor.rawTrendingScore nowH { i with published_date := some .unparseable }
        = DataProcessor.rawTrendingScore nowH { i with published_date := none } + 15/100 := by
  have hrec : DataProcessor.recencyContribution nowH (some (.parsed t)) = 0 := by
    simp only [DataProcessor.recencyContribution]
    rw [if_neg (by linarith)]
  refine ⟨?_, rfl, rfl, ?_⟩
  · unfold DataProcessor.calculate_trending_score DataProcessor.rawTrendingScore
    simp only [DataProcessor.recencyContribution]
    rw [if_neg (by linarith)]
  · unfold DataProcessor.rawTrendingScore
    simp only [DataProcessor.recencyContribution]
    ring

theorem c3_recency_asymmetry_witness :
    (24 : ℚ) ≤ 48 - 0
    ∧ DataProcessor.calculate_trending_score 48 { preItem with published_date := some (.parsed 0) }
        = DataProcessor.calculate_trending_score 48 { preItem with published_date := none }
    ∧ DataProcessor.rawTrendingScore 48 { preItem with published_date := some .unparseable }
        = DataProcessor.rawTrendingScore 48 { preItem with published_date := none } + 15/100 := by
  have h := c3_recency_asymmetry 48 0 preItem (by norm_num)
  exact ⟨by norm_num, h.1, h.2.2.2⟩

/-- C5 counterexample: The engagement-rate calculator is *not* total on
null inputs: a `None` view count is not equal to `0` under Python `==`, so
the division `total / None` raises a `TypeError` instead of returning 0. -/
theorem c5_counterexample :
    calculate_engagement_rate (some 5) (some 3) (some 2) none = .error () := rfl

/-- C5 (amended): Null like/comment/share counts are treated as 0 and
the calculator returns `(likes+comments+shares)/views*100` for `views > 0`
and exactly `0.0` for `views == 0`; but a null (`None`) view count is not
treated as 0 — it raises a `TypeError`. -/
theorem c5_amended_engagement_rate (likes comments shares : Option Int) (v : ℤ)
    (hv : 0 < v) :
    calculate_engagement_rate likes comments shares (some v)
      = .ok ((((likes.getD 0 + comments.getD 0 + shares.getD 0 : ℤ) : ℚ) / (v : ℚ)) * 100)
    ∧ calculate_engagement_rate likes comments shares (some 0) = .ok 0
    ∧ calculate_engagement_rate likes comments shares none = .error () := by
  refine ⟨?_, by simp [calculate_engagement_rate], rfl⟩
  unfold calculate_engagement_rate
  rw [if_neg (by simp; omega)]

theorem c5_amended_witness :
    calculate_engagement_rate (some 4) none (some 1) (some 2) = .ok 250
    ∧ calculate_engagement_rate (some 4) none (some 1) (some 0) = .ok 0
    ∧ calculate_engagement_rate (some 4) none (some 1) none = .error () := by
  obtain ⟨h1, h2, h3⟩ := c5_amended_engagement_rate (some 4) none (some 1) 2 (by norm_num)
  refine ⟨?_, h2, h3⟩
  rw [h1]
  norm_num

namespace DataProcessor

lemma addEngagement_fields (i : Item) :
    (addEngagement i).processed_at = i.processed_at
    ∧ (addEngagement i).title = i.title
    ∧ (addEngagement i).description = i.description
    ∧ (addEngagement i).hashtags = i.hashtags
    ∧ (addEngagement i).sentiment = i.sentiment := by
  unfold addEngagement
  dsimp only
  split_ifs <;> exact ⟨rfl, rfl, rfl, rfl, rfl⟩

lemma addTextFields_fields (i : Item) :
    (addTextFields i).processed_at = i.processed_at
    ∧ (addTextFields i).title = i.title
    ∧ (addTextFields i).description = i.description
    ∧ (addTextFields i).engagement_rate = i.engagement_rate
    ∧ (addTextFields i).sentiment = i.sentiment := by
  unfold addTextFields
  dsimp only
  split_ifs <;> exact ⟨rfl, rfl, rfl, rfl, rfl⟩

lemma addTextFields_hashtags_truthy {i : Item} (h : i.hashtags.truthy = true) :
    (addTextFields i).hashtags = i.hashtags := by
  unfold addTextFields
  dsimp only
  split_ifs with h1 h2 h3 <;> simp_all

lemma addSentiment_fields (env : Env) (i : Item) :
    (addSentiment env i).processed_at = i.processed_at
    ∧ (addSentiment env i).title = i.title
    ∧ (addSentiment env i).description = i.description
    ∧ (addSentiment env i).engagement_rate = i.engagement_rate
    ∧ (addSentiment env i).hashtags = i.hashtags := by
  unfold addSentiment
  dsimp only
  split_ifs <;> exact ⟨rfl, rfl, rfl, rfl, rfl⟩

lemma process_single_item_processed_at (env : Env) (i : Item) :
    (process_single_item env i).processed_at = some env.nowStr := by
  unfold process_single_item
  dsimp only
  rw [(addSentiment_fields _ _).1, (addTextFields_fields _).1,
    (addEngagement_fields _).1]

lemma process_single_item_engagement (env : Env) (i : Item) :
    (process_single_item env i).engagement_rate
      = (addEngagement { i with processed_at := some env.nowStr }).engagement_rate := by
  unfold process_single_item
  dsimp only
  rw [(addSentiment_fields _ _).2.2.2.1, (addTextFields_fields _).2.2.2.1]

lemma process_single_item_hashtags_truthy {i : Item} (env : Env)
    (h : i.hashtags.truthy = true) :
    (process_single_item env i).hashtags = i.hashtags := by
  unfold process_single_item
  dsimp only
  rw [(addSentiment_fields _ _).2.2.2.2]
  rw [addTextFields_hashtags_truthy (by rw [(addEngagement_fields _).2.2.2.1]; exact h)]
  rw [(addEngagement_fields _).2.2.2.1]

end DataProcessor

/-- C1 counterexample: `process_content_batch` is not a no-op on items
already carrying `processed_at`: it unconditionally re-runs per-item
enrichment, here overwriting the existing `processed_at` stamp. -/
theorem c1_counterexample :
    preItem.processed_at = some "2024-01-01T00:00:00"
    ∧ DataProcessor.process_content_batch env0 [preItem] ≠ [preItem] := by
  refine ⟨rfl, fun hc => ?_⟩
  have h2 : DataProcessor.process_single_item env0 preItem = preItem := by
    simpa [DataProcessor.process_content_batch] using hc
  have h3 := congrArg Item.processed_at h2
  rw [DataProcessor.process_single_item_processed_at] at h3
  exact absurd h3 (by decide)

/-- C1 (amended): Only `get_content_summary` skips items that already
carry `processed_at` (its re-processing loop passes them through unchanged);
`process_content_batch` re-processes every item of the batch
unconditionally, whether or not `processed_at` is set. -/
theorem c1_amended_only_summary_skips (env : Env) (i : Item) (l : List Item)
    (h : i.processed_at ≠ none) :
    DataProcessor.summaryProcessedItems env (i :: l)
      = i :: DataProcessor.summaryProcessedItems env l
    ∧ DataProcessor.process_content_batch env (i :: l)
      = DataProcessor.process_single_item env i :: DataProcessor.process_content_batch env l := by
  constructor
  · simp [DataProcessor.summaryProcessedItems, h]
  · rfl

theorem c1_amended_witness :
    DataProcessor.summaryProcessedItems env0 [preItem] = [preItem]
    ∧ DataProcessor.process_content_batch env0 [preItem]
      = [DataProcessor.process_single_item env0 preItem] := by
  have h := c1_amended_only_summary_skips env0 preItem [] (by simp [preItem])
  exact ⟨h.1, h.2⟩

/-- C6 counterexample: A `hashtags` field holding the JSON-encoded string
`'["viral"]'` is *not* normalized: enrichment leaves it a string, the hashtag
score counts its 9 characters (saturating at `min(9/5,1)*0.2 = 0.2`, whereas
the decoded one-element list would give `0.04`), and batch aggregation counts
individual characters as hashtags. -/
theorem c6_counterexample :
    jsonItem.hashtags = .ofStr "[\"viral\"]"
    ∧ (DataProcessor.process_single_item env0 jsonItem).hashtags = .ofStr "[\"viral\"]"
    ∧ DataProcessor.hashtagComponent (.ofStr "[\"viral\"]") = 2/10
    ∧ DataProcessor.hashtagComponent (.ofList ["viral"]) = 1/25
    ∧ (DataProcessor.analyze_trends "T" [jsonItem]).trending_hashtags.map (fun t => t.hashtag)
        = ["\"", "[", "v", "i", "r", "a", "l", "]"] := by
  refine ⟨rfl, rfl, ?_, ?_, rfl⟩
  · unfold DataProcessor.hashtagComponent
    rw [if_pos (by decide)]
    have hl : (HashField.ofStr "[\"viral\"]").pyLen = 9 := rfl
    rw [hl]
    norm_num
  · unfold DataProcessor.hashtagComponent
    rw [if_pos (by decide)]
    have hl : (HashField.ofList ["viral"]).pyLen = 1 := rfl
    rw [hl]
    norm_num

/-- C6 (amended): The core does not accept-and-normalize JSON-encoded
string hashtags: per-item enrichment passes any non-empty string value
through unchanged, the trending-score hashtag component is computed from the
string's character count, and iteration (hence batch hashtag counting) is
over its individual characters.  (Decoding happens only in outer layers —
the database read path and the analytics routes — not in the processor.) -/
theorem c6_amended_string_kept (env : Env) (i : Item) (s : String)
    (hs : i.hashtags = .ofStr s) (hne : s ≠ "") :
    (DataProcessor.process_single_item env i).hashtags = .ofStr s
    ∧ DataProcessor.hashtagComponent (.ofStr s) = min ((s.length : ℚ) / 5) 1 * (2/10)
    ∧ HashField.iter (.ofStr s) = s.toList.map (fun c => String.mk [c]) := by
  have htr : i.hashtags.truthy = true := by
    rw [hs]; simp [HashField.truthy, bne_iff_ne, hne]
  refine ⟨?_, ?_, rfl⟩
  · rw [DataProcessor.process_single_item_hashtags_truthy env htr, hs]
  · unfold DataProcessor.hashtagComponent
    rw [if_pos (by simp [HashField.truthy, bne_iff_ne, hne])]
    rfl

theorem c6_amended_witness :
    (DataProcessor.process_single_item env0 jsonItem).hashtags = .ofStr "[\"viral\"]"
    ∧ DataProcessor.hashtagComponent (.ofStr "[\"viral\"]")
        = min ((("[\"viral\"]" : String).length : ℚ) / 5) 1 * (2/10)
    ∧ HashField.iter (.ofStr "[\"viral\"]")
        = ("[\"viral\"]" : String).toList.map (fun c => String.mk [c]) :=
  c6_amended_string_kept env0 jsonItem "[\"viral\"]" rfl (by decide)

namespace DataProcessor

lemma addSentiment_sentiment_eq (env : Env) (j : Item)
    (ht : String.mk (stripWs (j.title ++ " " ++ j.description).toList) ≠ "") :
    (addSentiment env j).sentiment
      = some (analyze_sentiment env.blob
          (String.mk (stripWs (j.title ++ " " ++ j.description).toList))) := by
  unfold addSentiment
  dsimp only
  rw [if_pos ht]

end DataProcessor

/-- C7: Sentiment analysis never raises: every internal (TextBlob)
failure yields the neutral default, a failing item is enriched with that
neutral default, and batch processing continues with the remaining items. -/
theorem c7_sentiment_failure_neutral (blob : String → Except Unit (ℚ × ℚ))
    (env : Env) (text : String) (i : Item) (l : List Item)
    (hb : blob (clean_text text) = .error ())
    (henv : env.blob (clean_text (String.mk (stripWs (i.title ++ " " ++ i.description).toList))) = .error ())
    (ht : String.mk (stripWs (i.title ++ " " ++ i.description).toList) ≠ "") :
    analyze_sentiment blob text = neutralSentiment
    ∧ (DataProcessor.process_single_item env i).sentiment = some neutralSentiment
    ∧ DataProcessor.process_content_batch env (i :: l)
        = DataProcessor.process_single_item env i :: DataProcessor.process_content_batch env l := by
  refine ⟨?_, ?_, rfl⟩
  · unfold analyze_sentiment
    rw [hb]
  · have hjt : (DataProcessor.addTextFields (DataProcessor.addEngagement
        { i with processed_at := some env.nowStr })).title = i.title := by
      rw [(DataProcessor.addTextFields_fields _).2.1, (DataProcessor.addEngagement_fields _).2.1]
    have hjd : (DataProcessor.addTextFields (DataProcessor.addEngagement
        { i with processed_at := some env.nowStr })).description = i.description := by
      rw [(DataProcessor.addTextFields_fields _).2.2.1, (DataProcessor.addEngagement_fields _).2.2.1]
    unfold DataProcessor.process_single_item
    dsimp only
    rw [DataProcessor.addSentiment_sentiment_eq env _ (by rw [hjt, hjd]; exact ht)]
    rw [hjt, hjd]
    unfold analyze_sentiment
    rw [henv]

theorem c7_witness :
    analyze_sentiment env0.blob "hello" = neutralSentiment
    ∧ (DataProcessor.process_single_item env0 hiItem).sentiment = some neutralSentiment
    ∧ DataProcessor.process_content_batch env0 [hiItem]
        = [DataProcessor.process_single_item env0 hiItem] := by
  have h := c7_sentiment_failure_neutral env0.blob env0 "hello" hiItem [] rfl rfl (by decide)
  exact ⟨h.1, h.2.1, h.2.2⟩

/-- C9: The hashtag trend score is exactly the spec's formula
`min((count/total) * keyword_boost, 1.0)` rounded to 3 decimals, with the
1.5 boost for hashtags containing a keyword; on the 2-item batch where both
items carry `"viral"`, the top trending entry is reported with count 2 and
trend score 1.0 (the boost applies since `"viral"` contains `"viral"`). -/
theorem c9_hashtag_trend_score :
    (∀ (tag : String) (count total : Nat), total ≠ 0 →
      DataProcessor.calculate_hashtag_trend_score tag count total
        = specHashtagTrendScore tag count total)
    ∧ (["viral", "trending", "hot", "breaking", "new", "latest"].any
        (fun kw => strContains (pyToLower "viral") kw)) = true
    ∧ (DataProcessor.analyze_trends "T" [viralItem1, viralItem2]).trending_hashtags.head?
        = some { hashtag := "viral", count := 2, trend_score := 1 } := by
  refine ⟨?_, by decide, ?_⟩
  · intro tag count total h
    unfold DataProcessor.calculate_hashtag_trend_score specHashtagTrendScore
    rw [if_neg h]
  · have h0 : (DataProcessor.analyze_trends "T" [viralItem1, viralItem2]).trending_hashtags.head?
        = some { hashtag := "viral", count := 2,
                 trend_score := DataProcessor.calculate_hashtag_trend_score "viral" 2 2 } := rfl
    rw [h0]
    have hts : DataProcessor.calculate_hashtag_trend_score "viral" 2 2 = 1 := by
      unfold DataProcessor.calculate_hashtag_trend_score
      rw [if_neg (by norm_num)]
      dsimp only
      rw [if_pos (by decide)]
      norm_num [round3, roundHalfEven]
    rw [hts]

theorem c9_witness :
    DataProcessor.calculate_hashtag_trend_score "dance" 1 2
      = specHashtagTrendScore "dance" 1 2 :=
  c9_hashtag_trend_score.1 "dance" 1 2 (by decide)

/-- C10: Per-item enrichment sets `engagement_rate` only when both the
`view_count` and `like_count` keys are present; with positive views the value
is `round((likes + comments) / views * 100, 2)` — shares are never read — and
when either key is absent (and the raw item carries no `engagement_rate`) the
enriched item carries no `engagement_rate` field at all. -/
theorem c10_engagement_enrichment (env : Env) (i : Item) :
    ((i.view_count = none ∨ i.like_count = none) → i.engagement_rate = none →
      (DataProcessor.process_single_item env i).engagement_rate = none)
    ∧ (i.view_count.isSome = true → i.like_count.isSome = true →
        0 < getCount i.view_count →
      (DataProcessor.process_single_item env i).engagement_rate
        = some (round2 ((((getCount i.like_count + getCount i.comment_count : ℤ) : ℚ)
            / ((getCount i.view_count : ℤ) : ℚ)) * 100))) := by
  constructor
  · rintro (hv | hv) h2 <;>
    · rw [DataProcessor.process_single_item_engagement]
      unfold DataProcessor.addEngagement
      dsimp only
      rw [if_neg (by simp [hv])]
      exact h2
  · intro hv hl hpos
    rw [DataProcessor.process_single_item_engagement]
    unfold DataProcessor.addEngagement
    dsimp only
    rw [if_pos (by simp [hv, hl])]
    rw [if_pos hpos]

theorem c10_witness :
    (DataProcessor.process_single_item env0 engItem).engagement_rate = some 8
    ∧ (DataProcessor.process_single_item env0 hiItem).engagement_rate = none := by
  constructor
  · have h := (c10_engagement_enrichment env0 engItem).2 rfl rfl (by norm_num [engItem, getCount])
    rw [h]
    norm_num [engItem, getCount, round2, roundHalfEven]
  · exact (c10_engagement_enrichment env0 hiItem).1 (Or.inl rfl) rfl
